import Mathlib

/-!
Verification of the Zero-G-Engine scripting bridge
(`src/assembly/context.ts`, `src/assembly/mover.ts`).

The bridge is embedded shallowly:

* Host side. The 18 `@external("context", ...)` functions are implemented
  by the Rust host, which is not part of this repository; following the
  spec they are modelled as a faithful store/load over a host store
  (`HostState.store`), and every invocation is recorded in a call trace
  (`HostState.trace`) so that invocation-count properties can be stated.
* Guest side. The module-level mutable cells `currentEntityId` and `_self`
  become an explicit state record `ContextState`; `new Entity(...)` is
  modelled with an allocation counter (`nextAlloc`), so that two handles
  are the same object instance exactly when their `allocId`s coincide.
* Float values are kept abstract (`V`), instantiated with `ℚ` for the
  concrete mover scenario, which idealises `f32` arithmetic exactly.
-/

namespace ZeroG

/-- The transform category of a host channel: position, rotation or scale. -/
inductive Category where
  | position
  | rotation
  | scale
deriving DecidableEq, Repr

/-- The axis of a host channel. -/
inductive Axis where
  | x
  | y
  | z
deriving DecidableEq, Repr

/-- One host-function invocation, as recorded in the host call trace. -/
inductive HostEvent (V : Type) where
  | get : Category → Axis → Nat → HostEvent V
  | set : Category → Axis → Nat → V → HostEvent V

/-- Modelled from the spec: the host runtime's entity storage, reduced to
the 18 scalar channels the bridge can touch, together with the trace of
host-function invocations made so far. The spec describes the getters and
setters as a faithful store/load pair over host-owned state. -/
structure HostState (V : Type) where
  store : Category → Axis → Nat → V
  trace : List (HostEvent V)

/-- Modelled from the spec: a host getter is a faithful load from the host
store; it records exactly one invocation in the trace. -/
def hostGet (c : Category) (a : Axis) (id : Nat) (h : HostState V) :
    V × HostState V :=
  (h.store c a id, { h with trace := h.trace ++ [HostEvent.get c a id] })

/-- Modelled from the spec: a host setter is a faithful store into the host
store; it records exactly one invocation in the trace. -/
def hostSet (c : Category) (a : Axis) (id : Nat) (v : V) (h : HostState V) :
    HostState V :=
  { store := fun c2 a2 i2 => if c2 = c ∧ a2 = a ∧ i2 = id then v else h.store c2 a2 i2,
    trace := h.trace ++ [HostEvent.set c a id v] }

/-- Modelled from the spec: host function `get_entity_position_x`. -/
def get_entity_position_x (id : Nat) : HostState V → V × HostState V :=
  hostGet Category.position Axis.x id

/-- Modelled from the spec: host function `set_entity_position_x`. -/
def set_entity_position_x (id : Nat) (v : V) : HostState V → HostState V :=
  hostSet Category.position Axis.x id v

/-- Modelled from the spec: host function `get_entity_position_y`. -/
def get_entity_position_y (id : Nat) : HostState V → V × HostState V :=
  hostGet Category.position Axis.y id

/-- Modelled from the spec: host function `set_entity_position_y`. -/
def set_entity_position_y (id : Nat) (v : V) : HostState V → HostState V :=
  hostSet Category.position Axis.y id v

/-- Modelled from the spec: host function `get_entity_position_z`. -/
def get_entity_position_z (id : Nat) : HostState V → V × HostState V :=
  hostGet Category.position Axis.z id

/-- Modelled from the spec: host function `set_entity_position_z`. -/
def set_entity_position_z (id : Nat) (v : V) : HostState V → HostState V :=
  hostSet Category.position Axis.z id v

/-- Modelled from the spec: host function `get_entity_rotation_x`. -/
def get_entity_rotation_x (id : Nat) : HostState V → V × HostState V :=
  hostGet Category.rotation Axis.x id

/-- Modelled from the spec: host function `set_entity_rotation_x`. -/
def set_entity_rotation_x (id : Nat) (v : V) : HostState V → HostState V :=
  hostSet Category.rotation Axis.x id v

/-- Modelled from the spec: host function `get_entity_rotation_y`. -/
def get_entity_rotation_y (id : Nat) : HostState V → V × HostState V :=
  hostGet Category.rotation Axis.y id

/-- Modelled from the spec: host function `set_entity_rotation_y`. -/
def set_entity_rotation_y (id : Nat) (v : V) : HostState V → HostState V :=
  hostSet Category.rotation Axis.y id v

/-- Modelled from the spec: host function `get_entity_rotation_z`. -/
def get_entity_rotation_z (id : Nat) : HostState V → V × HostState V :=
  hostGet Category.rotation Axis.z id

/-- Modelled from the spec: host function `set_entity_rotation_z`. -/
def set_entity_rotation_z (id : Nat) (v : V) : HostState V → HostState V :=
  hostSet Category.rotation Axis.z id v

/-- Modelled from the spec: host function `get_entity_scale_x`. -/
def get_entity_scale_x (id : Nat) : HostState V → V × HostState V :=
  hostGet Category.scale Axis.x id

/-- Modelled from the spec: host function `set_entity_scale_x`. -/
def set_entity_scale_x (id : Nat) (v : V) : HostState V → HostState V :=
  hostSet Category.scale Axis.x id v

/-- Modelled from the spec: host function `get_entity_scale_y`. -/
def get_entity_scale_y (id : Nat) : HostState V → V × HostState V :=
  hostGet Category.scale Axis.y id

/-- Modelled from the spec: host function `set_entity_scale_y`. -/
def set_entity_scale_y (id : Nat) (v : V) : HostState V → HostState V :=
  hostSet Category.scale Axis.y id v

/-- Modelled from the spec: host function `get_entity_scale_z`. -/
def get_entity_scale_z (id : Nat) : HostState V → V × HostState V :=
  hostGet Category.scale Axis.z id

/-- Modelled from the spec: host function `set_entity_scale_z`. -/
def set_entity_scale_z (id : Nat) (v : V) : HostState V → HostState V :=
  hostSet Category.scale Axis.z id v

/-- The `Vec3` proxy class of `context.ts`: a stored entity id and six
host accessor function references, one getter/setter pair per axis. -/
structure Vec3 (V : Type) where
  id : Nat
  getterX : Nat → HostState V → V × HostState V
  setterX : Nat → V → HostState V → HostState V
  getterY : Nat → HostState V → V × HostState V
  setterY : Nat → V → HostState V → HostState V
  getterZ : Nat → HostState V → V × HostState V
  setterZ : Nat → V → HostState V → HostState V

/-- `get x()` of `Vec3`: forwards to `getterX` with the stored id. -/
def Vec3.x (p : Vec3 V) : HostState V → V × HostState V :=
  p.getterX p.id

/-- `set x(val)` of `Vec3`: forwards to `setterX` with the stored id. -/
def Vec3.setX (p : Vec3 V) (val : V) : HostState V → HostState V :=
  p.setterX p.id val

/-- `get y()` of `Vec3`: forwards to `getterY` with the stored id. -/
def Vec3.y (p : Vec3 V) : HostState V → V × HostState V :=
  p.getterY p.id

/-- `set y(val)` of `Vec3`: forwards to `setterY` with the stored id. -/
def Vec3.setY (p : Vec3 V) (val : V) : HostState V → HostState V :=
  p.setterY p.id val

/-- `get z()` of `Vec3`: forwards to `getterZ` with the stored id. -/
def Vec3.z (p : Vec3 V) : HostState V → V × HostState V :=
  p.getterZ p.id

/-- `set z(val)` of `Vec3`: forwards to `setterZ` with the stored id. -/
def Vec3.setZ (p : Vec3 V) (val : V) : HostState V → HostState V :=
  p.setterZ p.id val

/-- The `Transform` proxy class of `context.ts`: three `Vec3` bindings. -/
structure Transform (V : Type) where
  position : Vec3 V
  rotation : Vec3 V
  scale : Vec3 V

/-- The `Transform` constructor: wires each `Vec3` to the 6 host functions
of its category, all bound to the entity id `id`. -/
def Transform.new (id : Nat) : Transform V :=
  { position :=
      ⟨id,
       get_entity_position_x, set_entity_position_x,
       get_entity_position_y, set_entity_position_y,
       get_entity_position_z, set_entity_position_z⟩,
    rotation :=
      ⟨id,
       get_entity_rotation_x, set_entity_rotation_x,
       get_entity_rotation_y, set_entity_rotation_y,
       get_entity_rotation_z, set_entity_rotation_z⟩,
    scale :=
      ⟨id,
       get_entity_scale_x, set_entity_scale_x,
       get_entity_scale_y, set_entity_scale_y,
       get_entity_scale_z, set_entity_scale_z⟩ }

/-- The `Entity` proxy class of `context.ts`. The field `allocId` models
the object identity of the heap allocation performed by `new Entity(...)`:
two handles are the same object instance iff their `allocId`s coincide. -/
structure Entity (V : Type) where
  allocId : Nat
  id : Nat
  transform : Transform V

/-- The `Entity` constructor: `this.transform = new Transform(id)`. The
allocation tag `alloc` is supplied by the allocator of the enclosing
state. -/
def Entity.new (alloc : Nat) (id : Nat) : Entity V :=
  { allocId := alloc, id := id, transform := Transform.new id }

/-- The module-level mutable guest state of `context.ts`: the global
`currentEntityId`, the handle cache `_self`, and the allocation counter
modelling object identity of `new Entity(...)`. -/
structure ContextState (V : Type) where
  currentEntityId : Nat
  cache : Option (Entity V)
  nextAlloc : Nat

/-- The guest state at module instantiation: `currentEntityId = 0`,
`_self = null`. -/
def initialState (V : Type) : ContextState V :=
  { currentEntityId := 0, cache := none, nextAlloc := 0 }

/-- `setCurrentEntity(id)` of `context.ts`: `currentEntityId = id`. -/
def setCurrentEntity (id : Nat) (s : ContextState V) : ContextState V :=
  { s with currentEntityId := id }

/-- `self()` of `context.ts`:
`if (_self == null || _self!.id != currentEntityId) _self = new Entity(currentEntityId); return _self!;`. -/
def self (s : ContextState V) : Entity V × ContextState V :=
  match s.cache with
  | none =>
      let e : Entity V := Entity.new s.nextAlloc s.currentEntityId
      (e, { s with cache := some e, nextAlloc := s.nextAlloc + 1 })
  | some e =>
      if e.id ≠ s.currentEntityId then
        let e2 : Entity V := Entity.new s.nextAlloc s.currentEntityId
        (e2, { s with cache := some e2, nextAlloc := s.nextAlloc + 1 })
      else
        (e, s)

/-- Guest states reachable from module instantiation by the two exported
state-changing operations (`setCurrentEntity` and `self`; field accesses
do not touch the guest state). -/
inductive Reachable (V : Type) : ContextState V → Prop where
  | start : Reachable V (initialState V)
  | step_set (id : Nat) {s : ContextState V} :
      Reachable V s → Reachable V (setCurrentEntity id s)
  | step_self {s : ContextState V} :
      Reachable V s → Reachable V (self s).2

/-- Written from the spec's words (for the refinement claim on `self`):
true when "no cached handle exists, or the cached handle's entityId
differs from ContextState.currentEntityId". -/
def cacheStale (s : ContextState V) : Bool :=
  match s.cache with
  | none => true
  | some e => decide (e.id ≠ s.currentEntityId)

/-- Written from the spec's words: "if the cache is stale, construct a
fresh EntityHandle bound to ContextState.currentEntityId and store it as
the cache; otherwise return the existing cached handle unchanged". -/
def selfSpec (s : ContextState V) : Entity V × ContextState V :=
  if cacheStale s then
    let e : Entity V := Entity.new s.nextAlloc s.currentEntityId
    (e, { s with cache := some e, nextAlloc := s.nextAlloc + 1 })
  else
    ((s.cache.getD (Entity.new s.nextAlloc s.currentEntityId)), s)

/-- The `(n+1)`-st of a run of consecutive `self()` calls starting in `s`
with no intervening `setCurrentEntity`: its result handle and the state
after it. -/
def selfCalls (n : Nat) (s : ContextState V) : Entity V × ContextState V :=
  match n with
  | 0 => self s
  | n + 1 => self (selfCalls n s).2

/-- Selects the `Vec3` binding of a category from a `Transform`, for
stating properties uniformly over {position, rotation, scale}. -/
def Transform.vec (t : Transform V) : Category → Vec3 V
  | Category.position => t.position
  | Category.rotation => t.rotation
  | Category.scale => t.scale

/-- Axis-indexed read on a `Vec3`: dispatches to the `x`/`y`/`z` getter. -/
def Vec3.getAxis (p : Vec3 V) : Axis → HostState V → V × HostState V
  | Axis.x => p.x
  | Axis.y => p.y
  | Axis.z => p.z

/-- Axis-indexed write on a `Vec3`: dispatches to the `x`/`y`/`z` setter. -/
def Vec3.setAxis (p : Vec3 V) : Axis → V → HostState V → HostState V
  | Axis.x => p.setX
  | Axis.y => p.setY
  | Axis.z => p.setZ

/-- The guest-code scenario `self().transform.<cat>.<ax> = v` followed by
reading `self().transform.<cat>.<ax>`: each access calls `self()` afresh,
exactly as the sample script does. Returns the value read back. -/
def writeThenRead (cat : Category) (ax : Axis) (v : V)
    (s : ContextState V) (h : HostState V) : V :=
  (((self (self s).2).1.transform.vec cat).getAxis ax
    (((self s).1.transform.vec cat).setAxis ax v h)).1

/-- The guest-code scenario of reading `self().transform.position.x` twice
in a row; returns the final host state (whose trace records the getter
invocations issued). -/
def readPosXTwice (s : ContextState V) (h : HostState V) : HostState V :=
  ((self (self s).2).1.transform.position.x
    (((self s).1.transform.position.x h).2)).2

/-- The three entity-id equalities of the transform binding invariant: the
position, rotation and scale sub-bindings of a handle's transform are all
bound to the handle's own entity id. -/
def Entity.sameIds (e : Entity V) : Prop :=
  e.transform.position.id = e.id ∧
  e.transform.rotation.id = e.id ∧
  e.transform.scale.id = e.id

/-- A concrete mock host whose every channel initially reads 0 and whose
trace is empty, used to instantiate hypotheses of the theorems below at a
concrete input. -/
def mockHost : HostState ℚ :=
  { store := fun _ _ _ => 0, trace := [] }

/-- The structural binding invariant of an entity handle: its transform's
three `Vec3` sub-bindings are bound to the same entity id as the handle
itself, and their accessor slots are wired to the host functions of the
matching category (the wiring performed by `Transform.new`). -/
def Entity.wellBound (e : Entity V) : Prop :=
  e.transform = Transform.new e.id

/-- Allocator well-formedness of a guest state: a cached handle carries an
allocation tag strictly below the allocation counter, and is structurally
well bound. Every reachable state satisfies this (proved below). -/
def ContextState.WF (s : ContextState V) : Prop :=
  ∀ e, s.cache = some e → e.allocId < s.nextAlloc ∧ e.wellBound

namespace Mover

/-- `init()` of `mover.ts`: sets `position.x = -2.0` and
`position.y = 1.0` through `self()`, then logs both values back (the log
line reads each axis once more through `self()`). -/
def init (s : ContextState ℚ) (h : HostState ℚ) :
    ContextState ℚ × HostState ℚ :=
  let r1 := self s
  let h1 := r1.1.transform.position.setX (-2) h
  let r2 := self r1.2
  let h2 := r2.1.transform.position.setY 1 h1
  let r3 := self r2.2
  let g1 := r3.1.transform.position.x h2
  let r4 := self r3.2
  let g2 := r4.1.transform.position.y g1.2
  (r4.2, g2.2)

/-- `update(dt)` of `mover.ts`: reads `oldX`/`oldY`, performs
`position.x += dt * 1.01` and `position.y += dt * 1.01` (each compound
assignment evaluates its receiver `self().transform.position` once, then
does one get and one set), then reads `newX`/`newY` for the log line. -/
def update (dt : ℚ) (s : ContextState ℚ) (h : HostState ℚ) :
    ContextState ℚ × HostState ℚ :=
  let r1 := self s
  let o1 := r1.1.transform.position.x h
  let r2 := self r1.2
  let o2 := r2.1.transform.position.y o1.2
  let r3 := self r2.2
  let g1 := r3.1.transform.position.x o2.2
  let h1 := r3.1.transform.position.setX (g1.1 + dt * (101 / 100)) g1.2
  let r4 := self r3.2
  let g2 := r4.1.transform.position.y h1
  let h2 := r4.1.transform.position.setY (g2.1 + dt * (101 / 100)) g2.2
  let r5 := self r4.2
  let n1 := r5.1.transform.position.x h2
  let r6 := self r5.2
  let n2 := r6.1.transform.position.y n1.2
  (r6.2, n2.2)

end Mover

/-! ### Basic lemmas about `self` and the guest state -/

theorem setCurrentEntity_currentEntityId (id : Nat) (s : ContextState V) :
    (setCurrentEntity id s).currentEntityId = id := rfl

theorem setCurrentEntity_cache (id : Nat) (s : ContextState V) :
    (setCurrentEntity id s).cache = s.cache := rfl

theorem setCurrentEntity_nextAlloc (id : Nat) (s : ContextState V) :
    (setCurrentEntity id s).nextAlloc = s.nextAlloc := rfl

theorem Entity.new_id (alloc id : Nat) : (Entity.new alloc id : Entity V).id = id := rfl

theorem Entity.new_allocId (alloc id : Nat) :
    (Entity.new alloc id : Entity V).allocId = alloc := rfl

theorem Entity.new_wellBound (alloc id : Nat) :
    (Entity.new alloc id : Entity V).wellBound := rfl

/-- A `self()` call on a state whose cache already holds a handle for the
current id is a pure cache hit: same handle, state untouched. -/
theorem self_hit {s : ContextState V} {e : Entity V}
    (hc : s.cache = some e) (hid : e.id = s.currentEntityId) :
    self s = (e, s) := by
  simp [self, hc, hid]

/-- A `self()` call on a state whose cache holds a handle for a different
id rebuilds: fresh handle, stored as the new cache. -/
theorem self_miss {s : ContextState V} {e : Entity V}
    (hc : s.cache = some e) (hid : e.id ≠ s.currentEntityId) :
    self s = (Entity.new s.nextAlloc s.currentEntityId,
      { s with cache := some (Entity.new s.nextAlloc s.currentEntityId),
               nextAlloc := s.nextAlloc + 1 }) := by
  simp [self, hc, hid]

/-- A `self()` call on a state with an empty cache builds a fresh handle. -/
theorem self_none {s : ContextState V} (hc : s.cache = none) :
    self s = (Entity.new s.nextAlloc s.currentEntityId,
      { s with cache := some (Entity.new s.nextAlloc s.currentEntityId),
               nextAlloc := s.nextAlloc + 1 }) := by
  simp [self, hc]

/-- The handle returned by `self()` is always bound to the current id. -/
theorem self_fst_id (s : ContextState V) : (self s).1.id = s.currentEntityId := by
  rcases hc : s.cache with _ | e
  · rw [self_none hc]; rfl
  · by_cases hid : e.id = s.currentEntityId
    · rw [self_hit hc hid]; exact hid
    · rw [self_miss hc hid]; rfl


/-- After `self()`, the cache holds exactly the handle just returned. -/
theorem self_snd_cache (s : ContextState V) : (self s).2.cache = some (self s).1 := by
  rcases hc : s.cache with _ | e
  · rw [self_none hc]
  · by_cases hid : e.id = s.currentEntityId
    · rw [self_hit hc hid]; exact hc
    · rw [self_miss hc hid]

/-- `self()` never changes the current entity id. -/
theorem self_snd_currentEntityId (s : ContextState V) :
    (self s).2.currentEntityId = s.currentEntityId := by
  rcases hc : s.cache with _ | e
  · rw [self_none hc]
  · by_cases hid : e.id = s.currentEntityId
    · rw [self_hit hc hid]
    · rw [self_miss hc hid]

/-- The allocation counter never decreases across a `self()` call. -/
theorem self_nextAlloc_le (s : ContextState V) :
    s.nextAlloc ≤ (self s).2.nextAlloc := by
  rcases hc : s.cache with _ | e
  · rw [self_none hc]; exact Nat.le_succ _
  · by_cases hid : e.id = s.currentEntityId
    · rw [self_hit hc hid]
    · rw [self_miss hc hid]; exact Nat.le_succ _

/-- A second `self()` call immediately after a first one is a cache hit:
it returns the same handle and leaves the state unchanged. -/
theorem self_self (s : ContextState V) :
    self (self s).2 = ((self s).1, (self s).2) :=
  self_hit (self_snd_cache s)
    ((self_fst_id s).trans (self_snd_currentEntityId s).symm)

/-! ### Well-formedness of reachable states -/

theorem WF_initialState : (initialState V).WF := by
  intro e he
  simp [initialState] at he

theorem WF_setCurrentEntity {s : ContextState V} (hs : s.WF) (id : Nat) :
    (setCurrentEntity id s).WF := by
  intro e he
  exact hs e he

theorem WF_self {s : ContextState V} (hs : s.WF) : (self s).2.WF := by
  intro e he
  rcases hc : s.cache with _ | e0
  · rw [self_none hc] at he ⊢
    simp only [Option.some.injEq] at he
    subst he
    exact ⟨Nat.lt_succ_self _, Entity.new_wellBound _ _⟩
  · by_cases hid : e0.id = s.currentEntityId
    · rw [self_hit hc hid] at he ⊢
      exact hs e he
    · rw [self_miss hc hid] at he ⊢
      simp only [Option.some.injEq] at he
      subst he
      exact ⟨Nat.lt_succ_self _, Entity.new_wellBound _ _⟩

theorem Reachable.WF {s : ContextState V} (hr : Reachable V s) : s.WF := by
  induction hr with
  | start => exact WF_initialState
  | step_set id _ ih => exact WF_setCurrentEntity ih id
  | step_self _ ih => exact WF_self ih

/-- The handle returned by `self()` is always structurally well bound,
provided the incoming state is well formed. -/
theorem self_fst_wellBound {s : ContextState V} (hs : s.WF) :
    (self s).1.wellBound := by
  have h := (WF_self hs) (self s).1 (self_snd_cache s)
  exact h.2

/-- The handle returned by `self()` carries an allocation tag strictly
below the state's allocation counter afterwards. -/
theorem self_fst_allocId_lt {s : ContextState V} (hs : s.WF) :
    (self s).1.allocId < (self s).2.nextAlloc :=
  ((WF_self hs) (self s).1 (self_snd_cache s)).1

/-! ### Field accesses through a well-bound handle -/

/-- Reading any axis of any category through a well-bound handle loads
from the host store at that channel and the handle's id, and records
exactly one getter invocation. -/
theorem wellBound_getAxis {e : Entity V} (he : e.wellBound)
    (cat : Category) (ax : Axis) (h : HostState V) :
    (e.transform.vec cat).getAxis ax h =
      (h.store cat ax e.id,
       { h with trace := h.trace ++ [HostEvent.get cat ax e.id] }) := by
  have he2 : e.transform = Transform.new e.id := he
  rw [he2]
  cases cat <;> cases ax <;> rfl

/-- Writing any axis of any category through a well-bound handle forwards
to the host setter at that channel and the handle's id. -/
theorem wellBound_setAxis {e : Entity V} (he : e.wellBound)
    (cat : Category) (ax : Axis) (v : V) (h : HostState V) :
    (e.transform.vec cat).setAxis ax v h = hostSet cat ax e.id v h := by
  have he2 : e.transform = Transform.new e.id := he
  rw [he2]
  cases cat <;> cases ax <;> rfl

/-- The host store after a faithful set, read back at the same channel
and id, yields the value just written. -/
theorem hostSet_store_same (cat : Category) (ax : Axis) (id : Nat)
    (v : V) (h : HostState V) :
    (hostSet cat ax id v h).store cat ax id = v := by
  simp [hostSet]

theorem hostSet_trace (cat : Category) (ax : Axis) (id : Nat)
    (v : V) (h : HostState V) :
    (hostSet cat ax id v h).trace = h.trace ++ [HostEvent.set cat ax id v] := rfl

/-- Reading `position.x` through a well-bound handle, stated on the direct
`Vec3.x` accessor the sample script goes through. -/
theorem wellBound_position_x {e : Entity V} (he : e.wellBound) (h : HostState V) :
    e.transform.position.x h =
      (h.store Category.position Axis.x e.id,
       { h with trace := h.trace ++ [HostEvent.get Category.position Axis.x e.id] }) :=
  wellBound_getAxis he Category.position Axis.x h

/-- A well-bound handle satisfies the three id equalities of the transform
binding invariant. -/
theorem Entity.wellBound.sameIds {e : Entity V} (he : e.wellBound) :
    e.sameIds := by
  have he2 : e.transform = Transform.new e.id := he
  refine ⟨?_, ?_, ?_⟩ <;> rw [he2] <;> rfl

/-! ### Projection lemmas for evaluating the sample script scenario -/

theorem get_entity_position_x_fst (id : Nat) (h : HostState V) :
    (get_entity_position_x id h).1 = h.store Category.position Axis.x id := rfl

theorem get_entity_position_x_snd_store (id : Nat) (h : HostState V) :
    (get_entity_position_x id h).2.store = h.store := rfl

theorem get_entity_position_y_fst (id : Nat) (h : HostState V) :
    (get_entity_position_y id h).1 = h.store Category.position Axis.y id := rfl

theorem get_entity_position_y_snd_store (id : Nat) (h : HostState V) :
    (get_entity_position_y id h).2.store = h.store := rfl

theorem set_entity_position_x_store (id : Nat) (v : V) (h : HostState V)
    (c : Category) (a : Axis) (i : Nat) :
    (set_entity_position_x id v h).store c a i =
      if c = Category.position ∧ a = Axis.x ∧ i = id then v else h.store c a i := rfl

theorem set_entity_position_y_store (id : Nat) (v : V) (h : HostState V)
    (c : Category) (a : Axis) (i : Nat) :
    (set_entity_position_y id v h).store c a i =
      if c = Category.position ∧ a = Axis.y ∧ i = id then v else h.store c a i := rfl

/-- Switching to an id different from the one the freshly returned handle
is bound to, then calling `self()` again, rebuilds: the new handle takes
the next allocation tag, is bound to the new id, and the allocation
counter advances. -/
theorem self_after_set_of_other_id (s : ContextState V) (k : Nat)
    (hk : (self s).1.id ≠ k) :
    (self (setCurrentEntity k (self s).2)).1.allocId = (self s).2.nextAlloc ∧
    (self (setCurrentEntity k (self s).2)).1.id = k ∧
    (self (setCurrentEntity k (self s).2)).2.nextAlloc = (self s).2.nextAlloc + 1 := by
  have hc : (setCurrentEntity k (self s).2).cache = some (self s).1 :=
    self_snd_cache s
  have hn : (self s).1.id ≠ (setCurrentEntity k (self s).2).currentEntityId := hk
  rw [self_miss hc hn]
  exact ⟨rfl, rfl, rfl⟩

/-! ### The claims -/

/-- C1: `self()` follows exactly the spec's algorithm: on an absent cache
or a cached handle whose entityId differs from the current entity id it
builds and stores a fresh handle bound to the current id, otherwise it
returns the cached handle with the state unchanged. Proved as a refinement
against `selfSpec`, which is written from the spec's words, for every
state (hence in particular every reachable one). -/
theorem c1_self_matches_spec_algorithm (V : Type) (s : ContextState V) :
    self s = selfSpec s := by
  rcases hc : s.cache with _ | e
  · simp [self, selfSpec, cacheStale, hc]
  · by_cases hid : e.id = s.currentEntityId
    · simp [self, selfSpec, cacheStale, hc, hid]
    · simp [self, selfSpec, cacheStale, hc, hid]

/-- C2: in a run of consecutive `self()` calls with no intervening
`setCurrentEntity`, every call after the first returns the very same
handle as the previous call and leaves the guest state untouched — a pure
cache hit with no rebuild. -/
theorem c2_consecutive_self_calls_cache_hit (V : Type)
    (s : ContextState V) (n : Nat) :
    selfCalls (n + 1) s = selfCalls n s := by
  cases n with
  | zero =>
      show self (self s).2 = self s
      rw [self_self]
  | succ m =>
      show self (self (selfCalls m s).2).2 = self (selfCalls m s).2
      rw [self_self]

/-- C7: `setCurrentEntity(id)` unconditionally overwrites the current
entity id with `id` for every 32-bit value, and changes nothing else: the
cached handle and the allocation counter are left exactly as they were. -/
theorem c7_setCurrentEntity_overwrites_id_only (V : Type)
    (id : Nat) (hid : id < 2 ^ 32) (s : ContextState V) :
    (setCurrentEntity id s).currentEntityId = id ∧
    (setCurrentEntity id s).cache = s.cache ∧
    (setCurrentEntity id s).nextAlloc = s.nextAlloc :=
  ⟨rfl, rfl, rfl⟩

theorem c7_setCurrentEntity_overwrites_id_only_witness :
    4294967295 < 2 ^ 32 ∧
    ((setCurrentEntity 4294967295 (initialState ℚ)).currentEntityId = 4294967295 ∧
     (setCurrentEntity 4294967295 (initialState ℚ)).cache = (initialState ℚ).cache ∧
     (setCurrentEntity 4294967295 (initialState ℚ)).nextAlloc = (initialState ℚ).nextAlloc) :=
  ⟨by norm_num,
   c7_setCurrentEntity_overwrites_id_only ℚ 4294967295 (by norm_num) (initialState ℚ)⟩

/-- C8: without any prior `setCurrentEntity` call the current entity id
defaults to 0, and the first `self()` call still succeeds, returning a
handle bound to entity id 0 which is stored in the (now non-null)
cache. -/
theorem c8_default_id_zero_first_self_succeeds (V : Type) :
    (initialState V).currentEntityId = 0 ∧
    (self (initialState V)).1.id = 0 ∧
    (self (initialState V)).2.cache = some (self (initialState V)).1 :=
  ⟨rfl, rfl, self_snd_cache (initialState V)⟩

/-- C10: cache invalidation is keyed purely on id comparison: if the cache
holds a handle built for id `k`, then `setCurrentEntity(k)` followed by
`self()` returns that same cached handle (no rebuild), and the state is
unchanged apart from the id overwrite already performed. -/
theorem c10_same_id_set_is_cache_hit (V : Type) (s : ContextState V)
    (e : Entity V) (k : Nat) (hc : s.cache = some e) (hk : e.id = k) :
    self (setCurrentEntity k s) = (e, setCurrentEntity k s) :=
  self_hit (by rw [setCurrentEntity_cache]; exact hc)
    (by rw [setCurrentEntity_currentEntityId]; exact hk)

theorem c10_same_id_set_is_cache_hit_witness :
    (self (initialState ℚ)).2.cache = some (self (initialState ℚ)).1 ∧
    (self (initialState ℚ)).1.id = 0 ∧
    self (setCurrentEntity 0 (self (initialState ℚ)).2) =
      ((self (initialState ℚ)).1, setCurrentEntity 0 (self (initialState ℚ)).2) :=
  ⟨rfl, rfl,
   c10_same_id_set_is_cache_hit ℚ (self (initialState ℚ)).2
     (self (initialState ℚ)).1 0 rfl rfl⟩

/-- C3: for distinct ids `e1 ≠ e2`, running
`setCurrentEntity e1; self(); setCurrentEntity e2; self();
setCurrentEntity e1; self()` from any reachable state returns, after the
first `e1` and the second `e1`, two handles with distinct allocation tags
(distinct object instances: the intervening `e2` invalidated the cache),
and both handles report entity id `e1`. -/
theorem c3_interleaved_ids_distinct_handles (V : Type) (e1 e2 : Nat)
    (hne : e1 ≠ e2) (s : ContextState V) (hr : Reachable V s) :
    (self (setCurrentEntity e1 s)).1.allocId ≠
      (self (setCurrentEntity e1
        (self (setCurrentEntity e2 (self (setCurrentEntity e1 s)).2)).2)).1.allocId ∧
    (self (setCurrentEntity e1 s)).1.id = e1 ∧
    (self (setCurrentEntity e1
      (self (setCurrentEntity e2 (self (setCurrentEntity e1 s)).2)).2)).1.id = e1 := by
  have h2 := self_after_set_of_other_id (setCurrentEntity e1 s) e2
    (by rw [self_fst_id]; exact hne)
  have h3 := self_after_set_of_other_id
    (setCurrentEntity e2 (self (setCurrentEntity e1 s)).2) e1
    (by rw [self_fst_id]; exact hne.symm)
  have halloc1 := self_fst_allocId_lt (WF_setCurrentEntity hr.WF e1)
  refine ⟨?_, self_fst_id _, h3.2.1⟩
  rw [h3.1, h2.2.2]
  omega

theorem c3_interleaved_ids_distinct_handles_witness :
    (1 : Nat) ≠ 2 ∧
    ((self (setCurrentEntity 1 (initialState ℚ))).1.allocId ≠
       (self (setCurrentEntity 1
         (self (setCurrentEntity 2 (self (setCurrentEntity 1 (initialState ℚ))).2)).2)).1.allocId ∧
     (self (setCurrentEntity 1 (initialState ℚ))).1.id = 1 ∧
     (self (setCurrentEntity 1
       (self (setCurrentEntity 2 (self (setCurrentEntity 1 (initialState ℚ))).2)).2)).1.id = 1) :=
  ⟨by decide,
   c3_interleaved_ids_distinct_handles ℚ 1 2 (by decide) (initialState ℚ) Reachable.start⟩

/-- C4: every handle the bridge constructs satisfies the structural
invariant that the three `Vec3` sub-bindings of its transform are bound to
the handle's own entity id; established by the `Entity`/`Transform`
constructors, and holding for the handle returned by `self()` and the
cached handle in every reachable state (no operation mutates a binding's
id after construction). -/
theorem c4_transform_binding_invariant (V : Type) :
    (∀ alloc id, (Entity.new alloc id : Entity V).sameIds) ∧
    ∀ s : ContextState V, Reachable V s →
      (self s).1.sameIds ∧ ∀ e, s.cache = some e → e.sameIds := by
  refine ⟨fun alloc id => (Entity.new_wellBound alloc id).sameIds, fun s hr => ?_⟩
  exact ⟨(self_fst_wellBound hr.WF).sameIds, fun e he => ((hr.WF) e he).2.sameIds⟩

theorem c4_transform_binding_invariant_witness :
    (Entity.new 3 5 : Entity ℚ).sameIds ∧ (self (initialState ℚ)).1.sameIds :=
  ⟨(c4_transform_binding_invariant ℚ).1 3 5,
   ((c4_transform_binding_invariant ℚ).2 (initialState ℚ) Reachable.start).1⟩

/-- C5: for every category, axis and value: against the faithful
store/load host model, writing `v` through
`self().transform.<cat>.<ax> = v` and reading
`self().transform.<cat>.<ax>` back yields `v`, from any reachable guest
state and any host state. -/
theorem c5_axis_write_read_roundtrip (V : Type) (cat : Category) (ax : Axis)
    (v : V) (s : ContextState V) (hr : Reachable V s) (h : HostState V) :
    writeThenRead cat ax v s h = v := by
  have hwb : (self s).1.wellBound := self_fst_wellBound hr.WF
  simp [writeThenRead, self_self, wellBound_setAxis hwb,
    wellBound_getAxis hwb, hostSet]

theorem c5_axis_write_read_roundtrip_witness :
    writeThenRead Category.rotation Axis.z (37 : ℚ) (initialState ℚ) mockHost = 37 :=
  c5_axis_write_read_roundtrip ℚ Category.rotation Axis.z 37 (initialState ℚ)
    Reachable.start mockHost

/-- C6: every axis access through a handle returned by `self()` forwards
directly to the bound host accessor with the binding's stored entity id,
issuing exactly one host invocation (one trace event) and caching no
values (each read loads from the host store at access time); in
particular reading `self().transform.position.x` twice in a row issues
exactly two getter invocations. -/
theorem c6_access_is_single_host_call (V : Type) (s : ContextState V)
    (hr : Reachable V s) (h : HostState V) :
    (∀ cat ax,
      (((self s).1.transform.vec cat).getAxis ax h).1 = h.store cat ax (self s).1.id ∧
      (((self s).1.transform.vec cat).getAxis ax h).2.store = h.store ∧
      (((self s).1.transform.vec cat).getAxis ax h).2.trace
        = h.trace ++ [HostEvent.get cat ax (self s).1.id]) ∧
    (∀ cat ax v,
      ((self s).1.transform.vec cat).setAxis ax v h
        = hostSet cat ax (self s).1.id v h) ∧
    (readPosXTwice s h).trace
      = h.trace ++ [HostEvent.get Category.position Axis.x s.currentEntityId,
                    HostEvent.get Category.position Axis.x s.currentEntityId] := by
  have hwb : (self s).1.wellBound := self_fst_wellBound hr.WF
  refine ⟨fun cat ax => ?_, fun cat ax v => wellBound_setAxis hwb cat ax v h, ?_⟩
  · rw [wellBound_getAxis hwb]
    exact ⟨rfl, rfl, rfl⟩
  · simp [readPosXTwice, self_self, wellBound_position_x hwb, self_fst_id]

theorem c6_access_is_single_host_call_witness :
    (readPosXTwice (initialState ℚ) mockHost).trace
      = mockHost.trace ++ [HostEvent.get Category.position Axis.x 0,
                           HostEvent.get Category.position Axis.x 0] :=
  (c6_access_is_single_host_call ℚ (initialState ℚ) Reachable.start mockHost).2.2

set_option maxHeartbeats 1000000 in
/-- C9: against the faithful store/load host model, after the host sets
the current entity to 7, the sample script's `init` sets
`position.x = -2.0` and `position.y = 1.0`, and a subsequent
`update(0.5)` adds `0.5 * 1.01` to both axes, leaving exactly
`x = -1.495` and `y = 1.505` (the embedding computes in exact rational
arithmetic, so the values hold exactly, a fortiori within f32
tolerance). -/
theorem c9_mover_scenario_final_values (h : HostState ℚ) :
    (Mover.update 0.5
        (Mover.init (setCurrentEntity 7 (initialState ℚ)) h).1
        (Mover.init (setCurrentEntity 7 (initialState ℚ)) h).2).2.store
      Category.position Axis.x 7 = -1.495 ∧
    (Mover.update 0.5
        (Mover.init (setCurrentEntity 7 (initialState ℚ)) h).1
        (Mover.init (setCurrentEntity 7 (initialState ℚ)) h).2).2.store
      Category.position Axis.y 7 = 1.505 := by
  constructor <;>
  · simp [Mover.init, Mover.update, self, initialState, setCurrentEntity,
      Entity.new, Transform.new, Vec3.x, Vec3.setX, Vec3.y, Vec3.setY,
      get_entity_position_x_fst, get_entity_position_x_snd_store,
      get_entity_position_y_fst, get_entity_position_y_snd_store,
      set_entity_position_x_store, set_entity_position_y_store]
    norm_num

end ZeroG
